import Mathlib

/-!
Verification development for the Calendar Agent repository.

The Python sources are shallowly embedded as Lean definitions:
  * `src/utils/helpers.py`          : `parse_date`, `parse_time`, `is_future_datetime`
  * `src/mcp_server/handlers.py`    : `CalendarHandlers` (the five tool handlers and
                                      the conflict checker)
  * `src/integrations/google_calendar_service.py`
                                    : event conversion and the CRUD calls against the
                                      provider, modelled as a pure store (`Svc`)
  * `src/agent/calendar_agent.py`   : `_execute_tool` dispatch

Modelling conventions, noted once here:
  * Python `datetime` values are a `DateTime` structure (minute precision; all
    datetimes handled by this program have zero seconds).  Comparisons and
    `timedelta` arithmetic go through `toSec`, absolute seconds on the
    proleptic Gregorian timeline, which agrees with `datetime` ordering for
    valid dates.  `datetime.now()` is an explicit `now : Nat` parameter
    (seconds; the sub-second part of a real clock cannot change any of the
    integer-second comparisons the code performs).
  * `datetime.strptime` for the five format strings the program uses is
    transcribed matcher-by-matcher from CPython _strptime regexes
    (`%Y` = four digits, `%m` = 1[0-2]|0[1-9]|[1-9], `%d` = 3[01]|[12]d|0[1-9]|[1-9],
    `%H` = 2[0-3]|[0-1]d|d, `%M` = [0-5]d|d, a literal space = one or more
    whitespace), with whole-string anchoring and the `datetime` constructor
    validity check (year 1..9999, day within month).
  * The Google provider is a pure store of event bodies (`Svc.events`); the
    ISO round trip dateTime-string -> fromisoformat is exact for bodies this
    program writes, so events store the `DateTime` directly.  Provider-side
    failures (HttpError on create/update/delete) are the booleans
    `createOk/updateOk/deleteOk`; a non-HttpError raised while listing
    (which `get_events` does not catch) is `fetchRaises`.
  * f-string messages are transcribed without the decorative quote and
    check-mark characters; no claim depends on those characters.
  * Fields that no claim reads (created_at, synced_to_google, htmlLink,
    reminders, conferenceData) are not modelled.
-/

namespace Cal

/-! ### Dates, times, and the civil timeline -/

structure Date where
  year : Nat
  month : Nat
  day : Nat
deriving DecidableEq, Repr

structure DateTime where
  date : Date
  hour : Nat
  minute : Nat
deriving DecidableEq, Repr

def isLeap (y : Nat) : Bool :=
  (y % 4 == 0 && y % 100 != 0) || y % 400 == 0

def daysInMonth (y m : Nat) : Nat :=
  if m == 2 then (if isLeap y then 29 else 28)
  else if m == 4 || m == 6 || m == 9 || m == 11 then 30
  else 31

/-- The `datetime` constructor validity check (MINYEAR = 1, MAXYEAR = 9999). -/
def validDate (y m d : Nat) : Bool :=
  1 ≤ y && y ≤ 9999 && 1 ≤ m && m ≤ 12 && 1 ≤ d && d ≤ daysInMonth y m

def validDT (dt : DateTime) : Bool :=
  validDate dt.date.year dt.date.month dt.date.day && dt.hour ≤ 23 && dt.minute ≤ 59

/-- Days since 0000-03-01 (civil-from-days, Hinnant); monotone on valid dates. -/
def daysFromCivil (y m d : Nat) : Nat :=
  let y2 := if m ≤ 2 then y - 1 else y
  let era := y2 / 400
  let yoe := y2 % 400
  let mp := (m + 9) % 12
  let doy := (153 * mp + 2) / 5 + d - 1
  let doe := yoe * 365 + yoe / 4 - yoe / 100 + doy
  era * 146097 + doe

/-- Absolute seconds of a `DateTime`; the image of `datetime` ordering and
`timedelta` arithmetic. -/
def toSec (dt : DateTime) : Nat :=
  (daysFromCivil dt.date.year dt.date.month dt.date.day * 1440
    + dt.hour * 60 + dt.minute) * 60

/-! ### Character-level matchers for the CPython strptime regexes -/

def dval (c : Char) : Nat := c.toNat - '0'.toNat

/-- `%Y`: exactly four digits. -/
def matchYear : List Char → Option (Nat × List Char)
  | a :: b :: c :: d :: rest =>
    if a.isDigit && b.isDigit && c.isDigit && d.isDigit then
      some (((dval a * 10 + dval b) * 10 + dval c) * 10 + dval d, rest)
    else none
  | _ => none

/-- `%m`: 1[0-2]|0[1-9]|[1-9], ordered alternation. -/
def matchMonth : List Char → Option (Nat × List Char)
  | [] => none
  | [c] => if '1' ≤ c && c ≤ '9' then some (dval c, []) else none
  | c :: c2 :: rest =>
    if c == '1' && ('0' ≤ c2 && c2 ≤ '2') then some (10 + dval c2, rest)
    else if c == '0' && ('1' ≤ c2 && c2 ≤ '9') then some (dval c2, rest)
    else if '1' ≤ c && c ≤ '9' then some (dval c, c2 :: rest)
    else none

/-- `%d`: 3[01]|[12]d|0[1-9]|[1-9], ordered alternation. -/
def matchDay : List Char → Option (Nat × List Char)
  | [] => none
  | [c] => if '1' ≤ c && c ≤ '9' then some (dval c, []) else none
  | c :: c2 :: rest =>
    if c == '3' && (c2 == '0' || c2 == '1') then some (30 + dval c2, rest)
    else if (c == '1' || c == '2') && c2.isDigit then some (10 * dval c + dval c2, rest)
    else if c == '0' && ('1' ≤ c2 && c2 ≤ '9') then some (dval c2, rest)
    else if '1' ≤ c && c ≤ '9' then some (dval c, c2 :: rest)
    else none

/-- `%H`: 2[0-3]|[0-1]d|d, ordered alternation. -/
def matchHour : List Char → Option (Nat × List Char)
  | [] => none
  | [c] => if c.isDigit then some (dval c, []) else none
  | c :: c2 :: rest =>
    if c == '2' && ('0' ≤ c2 && c2 ≤ '3') then some (20 + dval c2, rest)
    else if (c == '0' || c == '1') && c2.isDigit then some (10 * dval c + dval c2, rest)
    else if c.isDigit then some (dval c, c2 :: rest)
    else none

/-- `%M`: [0-5]d|d, ordered alternation. -/
def matchMinute : List Char → Option (Nat × List Char)
  | [] => none
  | [c] => if c.isDigit then some (dval c, []) else none
  | c :: c2 :: rest =>
    if ('0' ≤ c && c ≤ '5') && c2.isDigit then some (10 * dval c + dval c2, rest)
    else if c.isDigit then some (dval c, c2 :: rest)
    else none

def expectChar (c : Char) : List Char → Option (List Char)
  | x :: rest => if x == c then some rest else none
  | [] => none

/-- Python default whitespace set (ASCII part). -/
def isPySpace (c : Char) : Bool :=
  c == ' ' || c == '\t' || c == '\n' || c == '\r' || c == '\x0b' || c == '\x0c'

/-- A literal blank in a strptime format string matches one or more whitespace. -/
def wsPlus : List Char → Option (List Char)
  | x :: rest => if isPySpace x then some (rest.dropWhile isPySpace) else none
  | [] => none

/-- `datetime.strptime(s, "%Y<sep>%m<sep>%d")`, including constructor validation. -/
def strptimeYMD (sep : Char) (s : String) : Option Date :=
  (matchYear s.data).bind fun yr =>
  (expectChar sep yr.2).bind fun r2 =>
  (matchMonth r2).bind fun mr =>
  (expectChar sep mr.2).bind fun r4 =>
  (matchDay r4).bind fun dr =>
  if dr.2 == [] && validDate yr.1 mr.1 dr.1 then some ⟨yr.1, mr.1, dr.1⟩ else none

/-- `datetime.strptime(s, "%d<sep>%m<sep>%Y")`, including constructor validation. -/
def strptimeDMY (sep : Char) (s : String) : Option Date :=
  (matchDay s.data).bind fun dr =>
  (expectChar sep dr.2).bind fun r2 =>
  (matchMonth r2).bind fun mr =>
  (expectChar sep mr.2).bind fun r4 =>
  (matchYear r4).bind fun yr =>
  if yr.2 == [] && validDate yr.1 mr.1 dr.1 then some ⟨yr.1, mr.1, dr.1⟩ else none

/-- `datetime.strptime(s, "%Y-%m-%d %H:%M")`, including constructor validation. -/
def strptimeDT (s : String) : Option DateTime :=
  (matchYear s.data).bind fun yr =>
  (expectChar '-' yr.2).bind fun r2 =>
  (matchMonth r2).bind fun mr =>
  (expectChar '-' mr.2).bind fun r4 =>
  (matchDay r4).bind fun dr =>
  (wsPlus dr.2).bind fun r6 =>
  (matchHour r6).bind fun hr =>
  (expectChar ':' hr.2).bind fun r8 =>
  (matchMinute r8).bind fun nr =>
  if nr.2 == [] && validDate yr.1 mr.1 dr.1 then
    some ⟨⟨yr.1, mr.1, dr.1⟩, hr.1, nr.1⟩
  else none

/-! ### Rendering (strftime on the formats the program uses) -/

/-- The decimal digit characters (only ever applied to values below 10). -/
def digitChar : Nat → Char
  | 0 => '0' | 1 => '1' | 2 => '2' | 3 => '3' | 4 => '4'
  | 5 => '5' | 6 => '6' | 7 => '7' | 8 => '8' | _ => '9'

/-- `%02d` (always called on values below 100 by this program). -/
def pad2 (n : Nat) : String := ⟨[digitChar (n / 10), digitChar (n % 10)]⟩

/-- `%Y` zero-padded to four digits (valid datetime years are 1..9999). -/
def pad4 (n : Nat) : String :=
  ⟨[digitChar (n / 1000), digitChar (n / 100 % 10), digitChar (n / 10 % 10),
    digitChar (n % 10)]⟩

/-- `dt.strftime("%Y-%m-%d")`. -/
def renderDate (d : Date) : String := pad4 d.year ++ "-" ++ pad2 d.month ++ "-" ++ pad2 d.day

/-- `f"{hour:02d}:{minute:02d}"` and `dt.strftime("%H:%M")`. -/
def renderTime (h m : Nat) : String := pad2 h ++ ":" ++ pad2 m

/-! ### String helpers shared by the embedding -/

/-- `str.strip()` on both ends (ASCII whitespace). -/
def pyStripL (cs : List Char) : List Char :=
  ((cs.dropWhile isPySpace).reverse.dropWhile isPySpace).reverse

def pyStrip (s : String) : String := ⟨pyStripL s.data⟩

/-- Python truthiness of an optional string argument (`None` and `""` are falsy). -/
def pyOptS : Option String → Bool
  | none => false
  | some s => s != ""

/-- Python truthiness of an optional list argument (`None` and `[]` are falsy). -/
def pyOptL : Option (List String) → Bool
  | none => false
  | some l => l != []

def isPrefixB : List Char → List Char → Bool
  | [], _ => true
  | _ :: _, [] => false
  | a :: as2, b :: bs => a == b && isPrefixB as2 bs

/-- Python substring test `n in h` (on char lists). -/
def isSubB (n : List Char) : List Char → Bool
  | [] => isPrefixB n []
  | c :: t => isPrefixB n (c :: t) || isSubB n t

/-- `s.lower()` (ASCII). -/
def strLower (s : String) : String := ⟨s.data.map Char.toLower⟩

/-- `email.split("@")[0]`: everything before the first at-sign. -/
def localPart (e : String) : String := ⟨e.data.takeWhile (fun c => c != '@')⟩

/-! ### `utils/helpers.py` -/

/-- The `for fmt in formats: try ... except: continue` loop of `parse_date`. -/
def tryFormats : List (String → Option Date) → String → Option Date
  | [], _ => none
  | f :: fs, s =>
    match f s with
    | some d => some d
    | none => tryFormats fs s

/-- `parse_date` from `utils/helpers.py`: the four formats, in order. -/
def parse_date (s : String) : Option Date :=
  tryFormats [strptimeYMD '-', strptimeYMD '/', strptimeDMY '-', strptimeDMY '/'] s

/-- First regex of `parse_time`: whole-string `\d{1,2}:\d{2}`.
(The quantifiers are deterministic here: a second digit and a colon cannot
be confused, so no backtracking case is lost.) -/
def match24 : List Char → Option (Nat × Nat)
  | a :: b :: rest =>
    if a.isDigit then
      if b.isDigit then
        match rest with
        | [':', c, d] => if c.isDigit && d.isDigit then
            some (10 * dval a + dval b, 10 * dval c + dval d) else none
        | _ => none
      else if b == ':' then
        match rest with
        | [c, d] => if c.isDigit && d.isDigit then
            some (dval a, 10 * dval c + dval d) else none
        | _ => none
      else none
    else none
  | _ => none

/-- Exactly `n` digits, returning the value. -/
def takeDigits : Nat → List Char → Option (Nat × List Char)
  | 0, cs => some (0, cs)
  | n + 1, c :: cs =>
    if c.isDigit then
      (takeDigits n cs).bind fun r => some (dval c * 10 ^ n + r.1, r.2)
    else none
  | _ + 1, [] => none

/-- `:?` — a colon is consumed when present (leaving it can never lead to a
match of the rest of the pattern, since what follows is digits, `\s*`, AM/PM). -/
def optColon : List Char → List Char
  | ':' :: r => r
  | cs => cs

/-- The anchored suffix group `(AM|PM|am|pm)$`; `true` means PM. -/
def suffixAmPm : List Char → Option Bool
  | ['A', 'M'] => some false
  | ['P', 'M'] => some true
  | ['a', 'm'] => some false
  | ['p', 'm'] => some true
  | _ => none

/-- One backtracking alternative of `(\d{1,2}):?(\d{2})?\s*(AM|PM|am|pm)`:
hour of `hlen` digits, minutes group present iff `useMin` (absent means 0). -/
def amPmAttempt (hlen : Nat) (useMin : Bool) (cs : List Char) : Option (Nat × Nat × Bool) :=
  (takeDigits hlen cs).bind fun hr =>
  let r2 := optColon hr.2
  (if useMin then takeDigits 2 r2 else some (0, r2)).bind fun mr =>
  (suffixAmPm (mr.2.dropWhile isPySpace)).bind fun pm =>
  some (hr.1, mr.1, pm)

/-- Second regex of `parse_time`, in the order a backtracking engine tries the
alternatives: two-digit hour before one-digit, minutes present before absent. -/
def matchAmPm (cs : List Char) : Option (Nat × Nat × Bool) :=
  match amPmAttempt 2 true cs with
  | some r => some r
  | none =>
  match amPmAttempt 2 false cs with
  | some r => some r
  | none =>
  match amPmAttempt 1 true cs with
  | some r => some r
  | none => amPmAttempt 1 false cs

/-- The 12-hour conversion in `parse_time`: PM adds 12 unless the hour is 12,
12 AM becomes 0. -/
def convert12 (h : Nat) (pm : Bool) : Nat :=
  if pm && h != 12 then h + 12
  else if !pm && h == 12 then 0
  else h

/-- The AM/PM half of `parse_time` (reached when the 24-hour branch does not
return). -/
def parse_time_ampm (cs : List Char) : Option String :=
  match matchAmPm cs with
  | some (h, m, pm) =>
    if convert12 h pm ≤ 23 && m ≤ 59 then some (renderTime (convert12 h pm) m) else none
  | none => none

/-- `parse_time` from `utils/helpers.py`. -/
def parse_time (s : String) : Option String :=
  let cs := pyStripL s.data
  match match24 cs with
  | some (h, m) => if h ≤ 23 && m ≤ 59 then some (renderTime h m) else parse_time_ampm cs
  | none => parse_time_ampm cs

/-- `is_future_datetime` from `utils/helpers.py`; the bare `except` makes any
parse failure yield `false`. -/
def is_future_datetime (date_str time_str : String) (now : Nat) : Bool :=
  match strptimeDT (date_str ++ " " ++ time_str) with
  | none => false
  | some dt => decide (now < toSec dt)

/-! ### Data model -/

/-- The local meeting dictionary (`handlers.py` / `_convert_from_google_event`).
`google_event_id` is absent (`none`) until the meeting is synced. -/
structure Meeting where
  id : String
  title : String
  date : String
  time : String
  participants : List String
  description : String
  google_event_id : Option String := none
deriving DecidableEq, Repr

/-- A stored provider event body: the fields of the Google event this program
writes and reads back.  The `start`/`end` dateTime strings round-trip exactly
through isoformat/fromisoformat, so the start is kept as a `DateTime` (the end
is always start + 60 minutes and is derived where needed). -/
structure GEvent where
  id : String
  summary : String
  description : String
  start : DateTime
  attendees : List String
  local_id : String
deriving DecidableEq, Repr

/-- The provider (`GoogleCalendarService` + remote store) as pure state. -/
structure Svc where
  events : List GEvent
  nextId : Nat := 0
  createOk : Bool := true
  updateOk : Bool := true
  deleteOk : Bool := true
  fetchRaises : Bool := false
deriving DecidableEq, Repr

/-- The uniform result envelope every tool handler returns. -/
structure ToolResult where
  success : Bool
  error : Option String := none
  message : Option String := none
  meeting : Option Meeting := none
  meetings : Option (List Meeting) := none
  count : Option Nat := none
  deleted_meeting : Option Meeting := none
deriving DecidableEq, Repr

/-! ### `google_calendar_service.py` -/

/-- The participant loop of `_convert_to_google_event`: skip falsy entries,
strip, then partition into attendee emails (contains both at-sign and dot)
and non-email names, preserving order. -/
def participantsPartition : List String → List String × List String
  | [] => ([], [])
  | p :: rest =>
    let r := participantsPartition rest
    if p != "" then
      let q := pyStrip p
      if q.data.contains '@' && q.data.contains '.' then (q :: r.1, r.2)
      else (r.1, q :: r.2)
    else r

/-- `"\n\nParticipants: " + ", ".join(non_email_participants)`. -/
def participantsText (nonEmail : List String) : String :=
  "\n\nParticipants: " ++ String.intercalate ", " nonEmail

/-- `_convert_to_google_event`.  A strptime failure on the date/time fields is
an uncaught ValueError, modelled as `Except.error` (the enclosing handler's
`except` clause turns it into an error result).  The provider id is assigned
by the store, so the body carries `id := ""` until stored. -/
def convert_to_google_event (m : Meeting) : Except String GEvent :=
  match strptimeDT (m.date ++ " " ++ m.time) with
  | none => .error "time data does not match format"
  | some st =>
    let part := participantsPartition m.participants
    let description :=
      if part.2 != [] then
        if m.description != "" then m.description ++ participantsText part.2
        else pyStrip (participantsText part.2)
      else m.description
    .ok { id := "", summary := m.title, description := description, start := st,
          attendees := part.1, local_id := m.id }

/-- `_convert_from_google_event` on a stored body.  Attendees carry no
displayName, so each participant comes back as `email.split("@")[0]`;
the local id is preferred over the provider id when truthy. -/
def convert_from_google_event (g : GEvent) : Meeting :=
  { id := if g.local_id != "" then g.local_id else g.id,
    title := g.summary,
    date := renderDate g.start.date,
    time := renderTime g.start.hour g.start.minute,
    participants := g.attendees.map localPart,
    description := g.description,
    google_event_id := some g.id }

/-- Relation ordering stored events by start time (the provider's
`orderBy=startTime`). -/
def startLE (a b : GEvent) : Prop := toSec a.start ≤ toSec b.start

instance : DecidableRel startLE :=
  fun a b => inferInstanceAs (Decidable (toSec a.start ≤ toSec b.start))

/-- The provider's answer to `events().list`: events intersecting the window
`[tmin, tmax)` (timeMin bounds the end, timeMax the start, both exclusive),
in ascending start order, capped at `max_results = 100`. -/
def getGEvents (s : Svc) (tmin tmax : Nat) : List GEvent :=
  ((s.events.filter fun g =>
      decide (tmin < toSec g.start + 3600) && decide (toSec g.start < tmax)).insertionSort
    startLE).take 100

/-- `get_events`: list then convert each body back to a meeting.  A provider
exception that is not an HttpError is not caught here and propagates
(`fetchRaises`). -/
def get_events (s : Svc) (tmin tmax : Nat) : Except String (List Meeting) :=
  if s.fetchRaises then .error "connection aborted"
  else .ok ((getGEvents s tmin tmax).map convert_from_google_event)

/-- `create_event`: convert (exceptions propagate) and insert; an HttpError
from the provider yields `none`. -/
def create_event (s : Svc) (m : Meeting) : Except String (Option String × Svc) :=
  match convert_to_google_event m with
  | .error e => .error e
  | .ok body =>
    if s.createOk then
      let gid := "gev" ++ Nat.repr s.nextId
      .ok (some gid,
        { s with events := s.events ++ [{ body with id := gid }], nextId := s.nextId + 1 })
    else .ok (none, s)

/-- `update_event`: convert (exceptions propagate) and overwrite the full body
at the given provider id; an HttpError yields `false`. -/
def update_event (s : Svc) (m : Meeting) (eid : String) : Except String (Bool × Svc) :=
  match convert_to_google_event m with
  | .error e => .error e
  | .ok body =>
    if s.updateOk then
      .ok (true, { s with events := s.events.map fun g =>
        if g.id == eid then { body with id := eid } else g })
    else .ok (false, s)

/-- `delete_event`: remove by provider id; an HttpError yields `false`. -/
def delete_event (s : Svc) (eid : String) : Bool × Svc :=
  if s.deleteOk then (true, { s with events := s.events.filter fun g => g.id != eid })
  else (false, s)

/-! ### `mcp_server/handlers.py` -/

/-- The event loop inside `_check_time_conflict`: skip the excluded event
(note the truthiness guard on `exclude_event_id`), parse each event's
date/time (a failure is an uncaught exception), and return the first event
whose fixed 60-minute interval overlaps the proposed one. -/
def conflictLoop (mStart mEnd : Nat) (exclude : Option String) :
    List Meeting → Except String (Option Meeting)
  | [] => .ok none
  | e :: rest =>
    if pyOptS exclude && e.google_event_id == exclude then
      conflictLoop mStart mEnd exclude rest
    else
      match strptimeDT (e.date ++ " " ++ e.time) with
      | none => .error "time data does not match format"
      | some edt =>
        if decide (mStart < toSec edt + 3600) && decide (mEnd > toSec edt) then .ok (some e)
        else conflictLoop mStart mEnd exclude rest

/-- The `try` body of `_check_time_conflict`: parse the proposal, fetch the
calendar day `[day_start, day_start + 24h)`, and scan for an overlap. -/
def check_time_conflict_exc (s : Svc) (date_str time_str : String)
    (exclude : Option String) : Except String (Option Meeting) :=
  match strptimeDT (date_str ++ " " ++ time_str) with
  | none => .error "time data does not match format"
  | some mdt =>
    let mStart := toSec mdt
    let dayStart := toSec ⟨mdt.date, 0, 0⟩
    match get_events s dayStart (dayStart + 86400) with
    | .error e => .error e
    | .ok events => conflictLoop mStart (mStart + 3600) exclude events

/-- `_check_time_conflict`: any exception in the body degrades to `none`
(no conflict found) — the fail-open branch. -/
def check_time_conflict (s : Svc) (date_str time_str : String)
    (exclude : Option String) : Option Meeting :=
  match check_time_conflict_exc s date_str time_str exclude with
  | .ok r => r
  | .error _ => none

/-- `schedule_meeting`.  `generate_meeting_id()` (a fresh uuid4 prefix) is the
caller-supplied `gen_id`; conflict detection is always on
(`GOOGLE_CALENDAR_CONFIG` has no `enable_conflict_detection` key, so the
`.get` default `True` applies). -/
def schedule_meeting (now : Nat) (gen_id : String) (s : Svc) (title date time : String)
    (participants : Option (List String)) (description : String) : ToolResult × Svc :=
  let ps := (participants.getD []).filter fun p => p != "" && pyStrip p != ""
  if title == "" || date == "" || time == "" then
    ({ success := false, error := some "Missing required fields (title, date, time)" }, s)
  else
    match parse_date date with
    | none =>
      ({ success := false,
         error := some ("Invalid date format " ++ date ++ ". Use YYYY-MM-DD") }, s)
    | some pd =>
      let dfmt := renderDate pd
      match parse_time time with
      | none =>
        ({ success := false,
           error := some ("Invalid time format " ++ time ++ ". Use HH:MM or 12-hour format") }, s)
      | some tfmt =>
        if !is_future_datetime dfmt tfmt now then
          ({ success := false, error := some "Cannot schedule meetings in the past" }, s)
        else
          match check_time_conflict s dfmt tfmt none with
          | some c =>
            ({ success := false,
               error := some ("Time conflict with " ++ c.title ++ " at " ++ c.date ++ " " ++ c.time) }, s)
          | none =>
            let meeting : Meeting :=
              { id := gen_id, title := title, date := dfmt, time := tfmt,
                participants := ps, description := description }
            match create_event s meeting with
            | .error e =>
              ({ success := false, error := some ("Error scheduling meeting: " ++ e) }, s)
            | .ok (some gid, s2) =>
              ({ success := true,
                 meeting := some { meeting with google_event_id := some gid },
                 message := some ("Successfully scheduled " ++ title ++ " on " ++ dfmt
                   ++ " at " ++ tfmt ++ " (Synced to Google Calendar)") }, s2)
            | .ok (none, s2) =>
              ({ success := false, error := some "Failed to create event in Google Calendar" }, s2)

/-- The fetch-and-filter part of `get_meeting_details` (after the window is
fixed): empty fetch short-circuits, then the participant, title and
meeting-id filters apply conjunctively in that order, each guarded by
truthiness of its argument. -/
def getDetailsCore (s : Svc) (tmin tmax : Nat)
    (participant title meeting_id : Option String) : ToolResult :=
  match get_events s tmin tmax with
  | .error e => { success := false, error := some ("Error retrieving meetings: " ++ e) }
  | .ok ms =>
    if ms == [] then
      { success := true, meetings := some [], message := some "No meetings found" }
    else
      let f1 := if pyOptS participant then
          ms.filter fun m => m.participants.any fun q =>
            isSubB (strLower (participant.getD "")).data (strLower q).data
        else ms
      let f2 := if pyOptS title then
          f1.filter fun m => isSubB (strLower (title.getD "")).data (strLower m.title).data
        else f1
      let f3 := if pyOptS meeting_id then
          f2.filter fun m => m.google_event_id == meeting_id || m.id == meeting_id.getD ""
        else f2
      { success := true, meetings := some f3, count := some f3.length,
        message := some ("Found " ++ Nat.repr f3.length ++ " meeting(s) in Google Calendar") }

/-- `get_meeting_details`: a truthy `date` gives a one-day window (invalid
date is a validation error), otherwise the next 30 days from now. -/
def get_meeting_details (now : Nat) (s : Svc)
    (date participant title meeting_id : Option String) : ToolResult :=
  if pyOptS date then
    match parse_date (date.getD "") with
    | none =>
      { success := false,
        error := some ("Invalid date format " ++ date.getD "" ++ ". Use YYYY-MM-DD") }
    | some pd =>
      getDetailsCore s (toSec ⟨pd, 0, 0⟩) (toSec ⟨pd, 0, 0⟩ + 86400)
        participant title meeting_id
  else
    getDetailsCore s now (now + 2592000) participant title meeting_id

/-- The sort key of `list_all_meetings` (`datetime.strptime` of date + time;
only evaluated after every entry is checked parseable). -/
def meetKey (m : Meeting) : Nat :=
  ((strptimeDT (m.date ++ " " ++ m.time)).map toSec).getD 0

def meetKeyLE (a b : Meeting) : Prop := meetKey a ≤ meetKey b

instance : DecidableRel meetKeyLE :=
  fun a b => inferInstanceAs (Decidable (meetKey a ≤ meetKey b))

/-- `list_all_meetings`: next 30 days, sorted by combined date+time; if any
entry's key raises, the `except` keeps the provider order. -/
def list_all_meetings (now : Nat) (s : Svc) : ToolResult :=
  match get_events s now (now + 2592000) with
  | .error e => { success := false, error := some ("Error listing meetings: " ++ e) }
  | .ok ms =>
    if ms == [] then
      { success := true, meetings := some [], count := some 0,
        message := some "No upcoming meetings in Google Calendar" }
    else
      let sorted := if ms.all fun m => (strptimeDT (m.date ++ " " ++ m.time)).isSome
        then ms.insertionSort meetKeyLE else ms
      { success := true, meetings := some sorted, count := some sorted.length,
        message := some ("Found " ++ Nat.repr sorted.length
          ++ " upcoming meeting(s) in Google Calendar") }

/-- The field-merge block of `update_meeting` after title: a truthy `date`
must parse (else a validation error ends the call), likewise `time`;
`participants` is guarded by list truthiness but `description` only by
`is not None`. -/
def mergeRest (m3 : Meeting) (participants : Option (List String))
    (description : Option String) : Meeting :=
  let m4 := if pyOptL participants then { m3 with participants := participants.getD [] } else m3
  if description.isSome then { m4 with description := description.getD "" } else m4

def mergeTime (m2 : Meeting) (time : Option String)
    (participants : Option (List String)) (description : Option String) :
    Except ToolResult Meeting :=
  if pyOptS time then
    match parse_time (time.getD "") with
    | none => .error { success := false, error := some ("Invalid time format " ++ time.getD "") }
    | some pt => .ok (mergeRest { m2 with time := pt } participants description)
  else .ok (mergeRest m2 participants description)

def mergeFields (m0 : Meeting) (title date time : Option String)
    (participants : Option (List String)) (description : Option String) :
    Except ToolResult Meeting :=
  let m1 := if pyOptS title then { m0 with title := title.getD "" } else m0
  if pyOptS date then
    match parse_date (date.getD "") with
    | none => .error { success := false, error := some ("Invalid date format " ++ date.getD "") }
    | some pd => mergeTime { m1 with date := renderDate pd } time participants description
  else mergeTime m1 time participants description

/-- The tail of `update_meeting`: push the fully merged meeting to the
adapter's `update_event` at the resolved provider id. -/
def updFinish (s : Svc) (m4 : Meeting) (gid : String) : ToolResult × Svc :=
  match update_event s m4 gid with
  | .error e => ({ success := false, error := some ("Error updating meeting: " ++ e) }, s)
  | .ok (true, s2) =>
    ({ success := true, meeting := some m4,
       message := some ("Successfully updated meeting " ++ m4.title ++ " in Google Calendar") }, s2)
  | .ok (false, s2) =>
    ({ success := false, error := some "Failed to update event in Google Calendar" }, s2)

/-- `update_meeting`: resolve via `get_meeting_details(meeting_id=...)` (first
match wins), merge only the supplied fields, re-check conflicts when date or
time was supplied (excluding the meeting's own event id), then update. -/
def update_meeting (now : Nat) (s : Svc) (meeting_id : String)
    (title date time : Option String) (participants : Option (List String))
    (description : Option String) : ToolResult × Svc :=
  let found := get_meeting_details now s none none none (some meeting_id)
  let nf : ToolResult × Svc :=
    ({ success := false,
       error := some ("Meeting with ID " ++ meeting_id ++ " not found in Google Calendar") }, s)
  match found.meetings with
  | some (m0 :: _) =>
    if found.success then
      if pyOptS m0.google_event_id then
        let gid := m0.google_event_id.getD ""
        match mergeFields m0 title date time participants description with
        | .error r => (r, s)
        | .ok m4 =>
          if pyOptS date || pyOptS time then
            match check_time_conflict s m4.date m4.time (some gid) with
            | some c =>
              ({ success := false,
                 error := some ("Time conflict with " ++ c.title ++ " at "
                   ++ c.date ++ " " ++ c.time) }, s)
            | none => updFinish s m4 gid
          else updFinish s m4 gid
      else ({ success := false, error := some "Cannot update meeting: Google event ID not found" }, s)
    else nf
  | _ => nf

/-- `delete_meeting`: resolve, then delete by provider id, returning the
deleted meeting's snapshot. -/
def delete_meeting (now : Nat) (s : Svc) (meeting_id : String) : ToolResult × Svc :=
  let found := get_meeting_details now s none none none (some meeting_id)
  let nf : ToolResult × Svc :=
    ({ success := false,
       error := some ("Meeting with ID " ++ meeting_id ++ " not found in Google Calendar") }, s)
  match found.meetings with
  | some (m0 :: _) =>
    if found.success then
      if pyOptS m0.google_event_id then
        match delete_event s (m0.google_event_id.getD "") with
        | (true, s2) =>
          ({ success := true,
             message := some ("Successfully deleted meeting " ++ m0.title
               ++ " from Google Calendar"),
             deleted_meeting := some m0 }, s2)
        | (false, s2) =>
          ({ success := false, error := some "Failed to delete event from Google Calendar" }, s2)
      else ({ success := false, error := some "Cannot delete meeting: Google event ID not found" }, s)
    else nf
  | _ => nf

/-! ### `agent/calendar_agent.py` -/

/-- The keyword arguments a model tool call can carry. -/
structure ToolInput where
  title : Option String := none
  date : Option String := none
  time : Option String := none
  participants : Option (List String) := none
  description : Option String := none
  participant : Option String := none
  meeting_id : Option String := none
deriving DecidableEq, Repr

/-- `CalendarAgent._execute_tool`: dispatch by exact name over the five tools;
an unknown name is a structured failure, and a TypeError from a missing
required keyword is caught by the handler's `except` into a
tool-execution-error result. -/
def execute_tool (now : Nat) (gen_id : String) (s : Svc) (tool_name : String)
    (inp : ToolInput) : ToolResult × Svc :=
  if tool_name == "schedule_meeting" then
    match inp.title, inp.date, inp.time with
    | some t, some d, some ti =>
      schedule_meeting now gen_id s t d ti inp.participants (inp.description.getD "")
    | _, _, _ =>
      ({ success := false, error := some "Tool execution error: missing a required argument" }, s)
  else if tool_name == "get_meeting_details" then
    (get_meeting_details now s inp.date inp.participant inp.title inp.meeting_id, s)
  else if tool_name == "list_all_meetings" then
    (list_all_meetings now s, s)
  else if tool_name == "update_meeting" then
    match inp.meeting_id with
    | some mid =>
      update_meeting now s mid inp.title inp.date inp.time inp.participants inp.description
    | none =>
      ({ success := false, error := some "Tool execution error: missing a required argument" }, s)
  else if tool_name == "delete_meeting" then
    match inp.meeting_id with
    | some mid => delete_meeting now s mid
    | none =>
      ({ success := false, error := some "Tool execution error: missing a required argument" }, s)
  else ({ success := false, error := some ("Unknown tool: " ++ tool_name) }, s)

/-! ### Round-trip lemmas: rendering re-parses to the same value -/

lemma isDigit_digitChar (k : Nat) (hk : k ≤ 9) : (digitChar k).isDigit = true := by
  interval_cases k <;> rfl

lemma dval_digitChar (k : Nat) (hk : k ≤ 9) : dval (digitChar k) = k := by
  interval_cases k <;> rfl

lemma isPySpace_digitChar (k : Nat) : isPySpace (digitChar k) = false := by
  unfold digitChar
  split <;> rfl

lemma matchYear_pad4 (y : Nat) (hy : y ≤ 9999) (rest : List Char) :
    matchYear ((pad4 y).data ++ rest) = some (y, rest) := by
  show matchYear (digitChar (y / 1000) :: digitChar (y / 100 % 10) ::
    digitChar (y / 10 % 10) :: digitChar (y % 10) :: rest) = some (y, rest)
  simp only [matchYear]
  rw [isDigit_digitChar _ (by omega), isDigit_digitChar _ (by omega),
    isDigit_digitChar _ (by omega), isDigit_digitChar _ (by omega)]
  rw [dval_digitChar _ (by omega), dval_digitChar _ (by omega),
    dval_digitChar _ (by omega), dval_digitChar _ (by omega)]
  simp only [Bool.and_self, if_true]
  congr 2
  omega

lemma matchMonth_pad2 (m : Nat) (h1 : 1 ≤ m) (h2 : m ≤ 12) (rest : List Char) :
    matchMonth ((pad2 m).data ++ rest) = some (m, rest) := by
  interval_cases m <;> rfl

lemma matchDay_pad2 (d : Nat) (h1 : 1 ≤ d) (h2 : d ≤ 31) (rest : List Char) :
    matchDay ((pad2 d).data ++ rest) = some (d, rest) := by
  interval_cases d <;> rfl

lemma matchHour_pad2 (h : Nat) (hh : h ≤ 23) (rest : List Char) :
    matchHour ((pad2 h).data ++ rest) = some (h, rest) := by
  interval_cases h <;> rfl

lemma matchMinute_pad2 (m : Nat) (hm : m ≤ 59) (rest : List Char) :
    matchMinute ((pad2 m).data ++ rest) = some (m, rest) := by
  interval_cases m <;> rfl

lemma expectChar_cons (c : Char) (rest : List Char) :
    expectChar c (c :: rest) = some rest := by
  simp [expectChar]

lemma daysInMonth_le_31 (y m : Nat) : daysInMonth y m ≤ 31 := by
  unfold daysInMonth
  split_ifs <;> omega

lemma validDate_bounds {y m d : Nat} (h : validDate y m d = true) :
    1 ≤ y ∧ y ≤ 9999 ∧ 1 ≤ m ∧ m ≤ 12 ∧ 1 ≤ d ∧ d ≤ 31 := by
  have h31 := daysInMonth_le_31 y m
  unfold validDate at h
  simp only [Bool.and_eq_true, decide_eq_true_eq] at h
  omega

/-- Rendering a valid date and time reproduces the parse:
`strptime(f"{d.strftime(date)} {hh:02d}:{mm:02d}", "%Y-%m-%d %H:%M")` is
exactly the datetime rendered. -/
lemma strptimeDT_render (y m d h mi : Nat) (hv : validDate y m d = true)
    (hh : h ≤ 23) (hm : mi ≤ 59) :
    strptimeDT (renderDate ⟨y, m, d⟩ ++ " " ++ renderTime h mi)
      = some ⟨⟨y, m, d⟩, h, mi⟩ := by
  obtain ⟨hy1, hy2, hm1, hm2, hd1, hd2⟩ := validDate_bounds hv
  have hdata : (renderDate ⟨y, m, d⟩ ++ " " ++ renderTime h mi).data
      = (pad4 y).data ++ '-' :: ((pad2 m).data ++ '-' :: ((pad2 d).data
        ++ ' ' :: ((pad2 h).data ++ ':' :: (pad2 mi).data))) := by
    simp [renderDate, renderTime, String.data_append]
  unfold strptimeDT
  rw [hdata, matchYear_pad4 y hy2]
  simp only [Option.some_bind]
  rw [expectChar_cons]
  simp only [Option.some_bind]
  rw [matchMonth_pad2 m hm1 hm2]
  simp only [Option.some_bind]
  rw [expectChar_cons]
  simp only [Option.some_bind]
  rw [matchDay_pad2 d hd1 hd2]
  simp only [Option.some_bind]
  have hws : wsPlus (' ' :: ((pad2 h).data ++ ':' :: (pad2 mi).data))
      = some ((pad2 h).data ++ ':' :: (pad2 mi).data) := by
    show some ((digitChar (h / 10) :: digitChar (h % 10) :: ':' :: (pad2 mi).data).dropWhile
      isPySpace) = _
    rw [List.dropWhile_cons, isPySpace_digitChar]
    simp only [Bool.false_eq_true, if_false]
    rfl
  rw [hws]
  simp only [Option.some_bind]
  rw [matchHour_pad2 h hh]
  simp only [Option.some_bind]
  rw [expectChar_cons]
  simp only [Option.some_bind]
  have hmin := matchMinute_pad2 mi hm []
  rw [List.append_nil] at hmin
  rw [hmin]
  simp only [Option.some_bind]
  rw [hv]
  rfl

/-- Every date produced by `parse_date` passed datetime-constructor
validation. -/
lemma strptimeYMD_valid {sep : Char} {s : String} {d : Date}
    (h : strptimeYMD sep s = some d) : validDate d.year d.month d.day = true := by
  unfold strptimeYMD at h
  simp only [Option.bind_eq_some] at h
  obtain ⟨yr, _, r2, _, mr, _, r4, _, dr, _, hfin⟩ := h
  split at hfin
  · rename_i hc
    simp only [Bool.and_eq_true, beq_iff_eq] at hc
    cases hfin
    exact hc.2
  · exact absurd hfin (by simp)

lemma strptimeDMY_valid {sep : Char} {s : String} {d : Date}
    (h : strptimeDMY sep s = some d) : validDate d.year d.month d.day = true := by
  unfold strptimeDMY at h
  simp only [Option.bind_eq_some] at h
  obtain ⟨dr, _, r2, _, mr, _, r4, _, yr, _, hfin⟩ := h
  split at hfin
  · rename_i hc
    simp only [Bool.and_eq_true, beq_iff_eq] at hc
    cases hfin
    exact hc.2
  · exact absurd hfin (by simp)

lemma parse_date_valid {s : String} {d : Date} (h : parse_date s = some d) :
    validDate d.year d.month d.day = true := by
  simp only [parse_date, tryFormats] at h
  split at h
  · cases h; exact strptimeYMD_valid (by assumption)
  · split at h
    · cases h; exact strptimeYMD_valid (by assumption)
    · split at h
      · cases h; exact strptimeDMY_valid (by assumption)
      · split at h
        · cases h; exact strptimeDMY_valid (by assumption)
        · exact absurd h (by simp)

/-- Every time string produced by `parse_time` is a rendered in-range pair. -/
lemma parse_time_shape {s : String} {t : String} (h : parse_time s = some t) :
    ∃ hh mm, hh ≤ 23 ∧ mm ≤ 59 ∧ t = renderTime hh mm := by
  simp only [parse_time] at h
  have ampm : ∀ cs, parse_time_ampm cs = some t →
      ∃ hh mm, hh ≤ 23 ∧ mm ≤ 59 ∧ t = renderTime hh mm := by
    intro cs hc
    unfold parse_time_ampm at hc
    split at hc
    · rename_i h2 m2 pm heq
      split at hc
      · rename_i hb
        simp only [Bool.and_eq_true, decide_eq_true_eq] at hb
        cases hc
        exact ⟨_, _, hb.1, hb.2, rfl⟩
      · exact absurd hc (by simp)
    · exact absurd hc (by simp)
  split at h
  · rename_i h2 m2 heq
    split at h
    · rename_i hb
      simp only [Bool.and_eq_true, decide_eq_true_eq] at hb
      cases h
      exact ⟨_, _, hb.1, hb.2, rfl⟩
    · exact ampm _ h
  · exact ampm _ h

/-! ### Claim C9: parse_date format order -/

/-- Claim C9: `parse_date` tries YYYY-MM-DD, YYYY/MM/DD, DD-MM-YYYY, DD/MM/YYYY
in that fixed order, returns the first successful parse and null when none
match; `"01-02-2025"` falls through the first two patterns and is read by the
third as day 1, month 2, year 2025. -/
theorem c9_parse_date_order :
    (∀ s, parse_date s =
      match strptimeYMD '-' s with
      | some d => some d
      | none =>
        match strptimeYMD '/' s with
        | some d => some d
        | none =>
          match strptimeDMY '-' s with
          | some d => some d
          | none => strptimeDMY '/' s)
    ∧ parse_date "01-02-2025" = some ⟨2025, 2, 1⟩
    ∧ strptimeYMD '-' "01-02-2025" = none
    ∧ strptimeYMD '/' "01-02-2025" = none
    ∧ strptimeDMY '-' "01-02-2025" = some ⟨2025, 2, 1⟩ := by
  refine ⟨fun s => ?_, by decide, by decide, by decide, by decide⟩
  simp only [parse_date, tryFormats]
  cases strptimeYMD '-' s <;> cases strptimeYMD '/' s <;>
    cases strptimeDMY '-' s <;> cases strptimeDMY '/' s <;> rfl

/-! ### Claim C8: parse_time characterization -/

/-- The claim-side acceptance of the strict 24-hour shape: `H:MM`/`HH:MM`
with hour in [0,23] and minute in [0,59]. -/
def accepts24 (cs : List Char) : Option (Nat × Nat) :=
  (match24 cs).bind fun r => if r.1 ≤ 23 && r.2 ≤ 59 then some r else none

/-- The claim-side acceptance of the 12-hour shape: optional minutes,
mandatory uniform-case AM/PM suffix, 12 PM fixed, 12 AM mapped to 0, PM
adding 12 otherwise, converted values in range. -/
def accepts12 (cs : List Char) : Option (Nat × Nat) :=
  (matchAmPm cs).bind fun r =>
    if convert12 r.1 r.2.2 ≤ 23 && r.2.1 ≤ 59 then some (convert12 r.1 r.2.2, r.2.1) else none

/-- The claim's reading of `parse_time`, written from its words (with the
suffix case amendment): strip, accept either shape, render `HH:MM`. -/
def parse_time_spec (s : String) : Option String :=
  match accepts24 (pyStripL s.data) with
  | some r => some (renderTime r.1 r.2)
  | none => (accepts12 (pyStripL s.data)).map fun r => renderTime r.1 r.2

lemma parse_time_ampm_eq (cs : List Char) :
    parse_time_ampm cs = (accepts12 cs).map fun r => renderTime r.1 r.2 := by
  unfold parse_time_ampm accepts12
  cases h : matchAmPm cs with
  | none => rfl
  | some r =>
    obtain ⟨h2, m2, pm⟩ := r
    simp only [Option.some_bind]
    split <;> simp

/-- Claim C8 (amended: the AM/PM suffix must be written uniformly as
`AM`, `PM`, `am` or `pm`; mixed case is rejected): `parse_time` yields a
normalized `HH:MM` exactly when the stripped input matches the strict
24-hour shape with in-range components, or the 12-hour shape whose
converted hour/minute are in range; anything else yields null, and every
output is a rendered in-range pair. -/
theorem c8_parse_time (s : String) :
    parse_time s = parse_time_spec s
    ∧ (∀ t, parse_time s = some t → ∃ hh mm, hh ≤ 23 ∧ mm ≤ 59 ∧ t = renderTime hh mm) := by
  constructor
  · simp only [parse_time, parse_time_spec, accepts24]
    cases h24 : match24 (pyStripL s.data) with
    | none => simp only [Option.none_bind]; exact parse_time_ampm_eq _
    | some r =>
      obtain ⟨hh, mm⟩ := r
      simp only [Option.some_bind]
      split
      · rfl
      · exact parse_time_ampm_eq _
  · exact fun t ht => parse_time_shape ht

/-- Witness for C8 at a concrete input. -/
theorem c8_parse_time_witness :
    parse_time "2:30 PM" = parse_time_spec "2:30 PM"
    ∧ ∃ hh mm, hh ≤ 23 ∧ mm ≤ 59 ∧ "14:30" = renderTime hh mm :=
  ⟨(c8_parse_time "2:30 PM").1, (c8_parse_time "2:30 PM").2 "14:30" (by decide)⟩

/-- The claim's literal case-insensitive suffix, for the refutation. -/
def suffixAmPmCI : List Char → Option Bool
  | [c1, c2] =>
    if (c1 == 'a' || c1 == 'A') && (c2 == 'm' || c2 == 'M') then some false
    else if (c1 == 'p' || c1 == 'P') && (c2 == 'm' || c2 == 'M') then some true
    else none
  | _ => none

def amPmAttemptCI (hlen : Nat) (useMin : Bool) (cs : List Char) : Option (Nat × Nat × Bool) :=
  (takeDigits hlen cs).bind fun hr =>
  let r2 := optColon hr.2
  (if useMin then takeDigits 2 r2 else some (0, r2)).bind fun mr =>
  (suffixAmPmCI (mr.2.dropWhile isPySpace)).bind fun pm =>
  some (hr.1, mr.1, pm)

def matchAmPmCI (cs : List Char) : Option (Nat × Nat × Bool) :=
  match amPmAttemptCI 2 true cs with
  | some r => some r
  | none =>
  match amPmAttemptCI 2 false cs with
  | some r => some r
  | none =>
  match amPmAttemptCI 1 true cs with
  | some r => some r
  | none => amPmAttemptCI 1 false cs

/-- The claim exactly as stated (case-insensitive suffix). -/
def parse_time_claimCI (s : String) : Option String :=
  match accepts24 (pyStripL s.data) with
  | some r => some (renderTime r.1 r.2)
  | none =>
    ((matchAmPmCI (pyStripL s.data)).bind fun r =>
      if convert12 r.1 r.2.2 ≤ 23 && r.2.1 ≤ 59 then
        some (convert12 r.1 r.2.2, r.2.1) else none).map
      fun r => renderTime r.1 r.2

/-- Refutation of C8 as stated: `"2Am"` is a 12-hour form with a
case-insensitive AM suffix and in-range converted values, so the claim
demands `02:00`, but `parse_time` rejects it (the regex alternation is
`AM|PM|am|pm`, uniform case only). -/
theorem c8_counterexample :
    parse_time_claimCI "2Am" = some "02:00" ∧ parse_time "2Am" = none := by
  constructor <;> decide

/-! ### Claim C7: fail-open conflict check, fail-closed future check -/

/-- Claim C7: every exception inside `_check_time_conflict` (a raised fetch,
an unparseable proposal, or an unparseable fetched event) degrades to
`none` = no conflict, so the guarded action is allowed; while a parse failure
in `is_future_datetime` yields `false`, rejecting the scheduling attempt. -/
theorem c7_fail_open_fail_closed (s : Svc) (ds ts : String) (ex : Option String) (now : Nat) :
    (∀ e, check_time_conflict_exc s ds ts ex = .error e → check_time_conflict s ds ts ex = none)
    ∧ (s.fetchRaises = true → check_time_conflict s ds ts ex = none)
    ∧ (strptimeDT (ds ++ " " ++ ts) = none → check_time_conflict s ds ts ex = none)
    ∧ (strptimeDT (ds ++ " " ++ ts) = none → is_future_datetime ds ts now = false) := by
  refine ⟨fun e he => ?_, fun hf => ?_, fun hp => ?_, fun hp => ?_⟩
  · unfold check_time_conflict
    rw [he]
  · unfold check_time_conflict check_time_conflict_exc
    cases hp : strptimeDT (ds ++ " " ++ ts) with
    | none => rfl
    | some mdt => simp [get_events, hf]
  · unfold check_time_conflict check_time_conflict_exc
    rw [hp]
  · unfold is_future_datetime
    rw [hp]

/-- Witness for C7: a raising fetch hides an otherwise-conflicting stored
event, and an unparseable time is reported as not in the future. -/
theorem c7_witness :
    check_time_conflict
      { events := [{ id := "g1", summary := "Busy", description := "",
                     start := ⟨⟨2025, 6, 10⟩, 14, 0⟩, attendees := [], local_id := "x" }],
        fetchRaises := true } "2025-06-10" "14:30" none = none
    ∧ is_future_datetime "2025-06-10" "25:99" 0 = false := by
  constructor
  · exact (c7_fail_open_fail_closed _ "2025-06-10" "14:30" none 0).2.1 rfl
  · exact (c7_fail_open_fail_closed
      { events := [], fetchRaises := false } "2025-06-10" "25:99" none 0).2.2.2 (by decide)

/-! ### Claim C3: conflict detection characterization -/

/-- The claim's overlap predicate: with both meetings exactly 60 minutes wide,
an event conflicts iff `proposed_start < event_start + 60min` and
`event_start < proposed_start + 60min`, both strict. -/
def conflicts60 (pStart : Nat) (m2 : Meeting) : Bool :=
  match strptimeDT (m2.date ++ " " ++ m2.time) with
  | none => false
  | some edt => decide (pStart < toSec edt + 3600) && decide (toSec edt < pStart + 3600)

/-- The meetings `_check_time_conflict` fetches: the proposal's calendar day. -/
def dayWindowEvents (s : Svc) (mdt : DateTime) : List Meeting :=
  (getGEvents s (toSec ⟨mdt.date, 0, 0⟩) (toSec ⟨mdt.date, 0, 0⟩ + 86400)).map
    convert_from_google_event

instance : IsTotal GEvent startLE := ⟨fun _ _ => Nat.le_total _ _⟩

instance : IsTrans GEvent startLE := ⟨fun _ _ _ => Nat.le_trans⟩

lemma conflictLoop_eq_find (mStart : Nat) (exclude : Option String) (l : List Meeting)
    (hall : ∀ m2 ∈ l, (strptimeDT (m2.date ++ " " ++ m2.time)).isSome = true) :
    conflictLoop mStart (mStart + 3600) exclude l
      = .ok (l.find? fun m2 =>
          !(pyOptS exclude && m2.google_event_id == exclude) && conflicts60 mStart m2) := by
  induction l with
  | nil => rfl
  | cons e rest ih =>
    have he := hall e (List.mem_cons_self e rest)
    obtain ⟨edt, hedt⟩ := Option.isSome_iff_exists.mp he
    have hrest := ih fun m2 hm => hall m2 (List.mem_cons_of_mem e hm)
    have hc60 : conflicts60 mStart e
        = (decide (mStart < toSec edt + 3600) && decide (toSec edt < mStart + 3600)) := by
      unfold conflicts60
      rw [hedt]
    have hgt : decide (mStart + 3600 > toSec edt) = decide (toSec edt < mStart + 3600) := rfl
    unfold conflictLoop
    rw [List.find?_cons]
    by_cases hskip : (pyOptS exclude && e.google_event_id == exclude) = true
    · simp only [hskip, if_true, Bool.not_true, Bool.false_and, hrest]
    · have hskip2 := Bool.eq_false_iff.mpr hskip
      simp only [hskip2, Bool.false_eq_true, if_false, Bool.not_false, Bool.true_and,
        hedt, hc60, hgt]
      by_cases hov : (decide (mStart < toSec edt + 3600)
          && decide (toSec edt < mStart + 3600)) = true
      · simp only [hov, if_true]
      · have hov2 := Bool.eq_false_iff.mpr hov
        simp only [hov2, Bool.false_eq_true, if_false, hrest]

/-- Claim C3: with the proposal parseable, the fetch healthy, and every
fetched event parseable, `_check_time_conflict` returns exactly the first
event of the provider-ordered day list that is not the excluded event and
whose fixed-60-minute interval strictly overlaps the proposal's; the
underlying provider list is sorted by start time.  (A blank exclusion id is
never used by the callers and is excluded by hypothesis, since the code's
truthiness guard would ignore it.) -/
theorem c3_conflict_characterization (s : Svc) (ds ts : String) (mdt : DateTime) (ex : String)
    (hp : strptimeDT (ds ++ " " ++ ts) = some mdt)
    (hf : s.fetchRaises = false)
    (hall : ∀ m2 ∈ dayWindowEvents s mdt, (strptimeDT (m2.date ++ " " ++ m2.time)).isSome = true)
    (hex : ex ≠ "") :
    check_time_conflict s ds ts (some ex)
      = (dayWindowEvents s mdt).find? (fun m2 =>
          !(m2.google_event_id == some ex) && conflicts60 (toSec mdt) m2)
    ∧ check_time_conflict s ds ts none
      = (dayWindowEvents s mdt).find? (conflicts60 (toSec mdt))
    ∧ List.Sorted startLE
        (getGEvents s (toSec ⟨mdt.date, 0, 0⟩) (toSec ⟨mdt.date, 0, 0⟩ + 86400)) := by
  have hbne : (ex != "") = true := by simpa [bne_iff_ne] using hex
  have hcore : ∀ exo : Option String,
      check_time_conflict s ds ts exo
        = (dayWindowEvents s mdt).find? (fun m2 =>
            !(pyOptS exo && m2.google_event_id == exo) && conflicts60 (toSec mdt) m2) := by
    intro exo
    unfold check_time_conflict check_time_conflict_exc
    rw [hp]
    simp only [get_events, hf, Bool.false_eq_true, if_false]
    rw [show List.map convert_from_google_event
        (getGEvents s (toSec ⟨mdt.date, 0, 0⟩) (toSec ⟨mdt.date, 0, 0⟩ + 86400))
      = dayWindowEvents s mdt from rfl]
    rw [conflictLoop_eq_find (toSec mdt) exo _ hall]
  refine ⟨?_, ?_, ?_⟩
  · rw [hcore (some ex)]
    simp only [pyOptS, hbne, Bool.true_and]
  · rw [hcore none]
    simp only [pyOptS, Bool.false_and, Bool.not_false, Bool.true_and]
  · exact List.Pairwise.sublist (List.take_sublist _ _)
      (List.sorted_insertionSort startLE _)

/-- Concrete fixture: one stored meeting 14:00-15:00 on 2025-06-10. -/
def svcB : Svc :=
  { events := [{ id := "g1", summary := "Busy", description := "",
                 start := ⟨⟨2025, 6, 10⟩, 14, 0⟩, attendees := [], local_id := "x" }] }

/-- Witness for C3: a proposal at 15:00 against the 14:00 meeting — the
boundary case — is characterized by the theorem and yields no conflict. -/
theorem c3_witness :
    check_time_conflict svcB "2025-06-10" "15:00" (some "zz")
      = (dayWindowEvents svcB ⟨⟨2025, 6, 10⟩, 15, 0⟩).find? (fun m2 =>
          !(m2.google_event_id == some "zz")
            && conflicts60 (toSec ⟨⟨2025, 6, 10⟩, 15, 0⟩) m2)
    ∧ (dayWindowEvents svcB ⟨⟨2025, 6, 10⟩, 15, 0⟩).find? (fun m2 =>
          !(m2.google_event_id == some "zz")
            && conflicts60 (toSec ⟨⟨2025, 6, 10⟩, 15, 0⟩) m2) = none := by
  refine ⟨(c3_conflict_characterization svcB "2025-06-10" "15:00" ⟨⟨2025, 6, 10⟩, 15, 0⟩ "zz"
    (by decide) rfl (by decide) (by decide)).1, by decide⟩

/-! ### Claim C4: participant partitioning on the write path -/

/-- The claim's email test: contains both an at-sign and a dot. -/
def emailLike (q : String) : Bool := q.data.contains '@' && q.data.contains '.'

/-- Claim-side view of the attendee extraction: the stripped email-like
participants, in order. -/
def emailsOf (ps : List String) : List String :=
  ps.filterMap fun p => if p != "" && emailLike (pyStrip p) then some (pyStrip p) else none

/-- Claim-side view of the demoted participants: the stripped non-email
entries, in order. -/
def nonEmailsOf (ps : List String) : List String :=
  ps.filterMap fun p => if p != "" && !emailLike (pyStrip p) then some (pyStrip p) else none

lemma participantsPartition_fst (ps : List String) :
    (participantsPartition ps).1 = emailsOf ps := by
  induction ps with
  | nil => rfl
  | cons p rest ih =>
    simp only [participantsPartition, emailsOf, List.filterMap_cons] at *
    cases hp : (p != "") with
    | false =>
      simp at hp
      simp [hp, ih, emailLike]
    | true =>
      simp at hp
      cases he : ((pyStrip p).data.contains '@' && (pyStrip p).data.contains '.') with
      | true =>
        simp at he
        simp [hp, he.1, he.2, ih, emailLike]
      | false =>
        simp at he
        by_cases ha : '@' ∈ (pyStrip p).data
        · have hd := he ha
          simp [hp, ha, hd, ih, emailLike]
        · simp [hp, ha, ih, emailLike]

lemma participantsPartition_snd (ps : List String) :
    (participantsPartition ps).2 = nonEmailsOf ps := by
  induction ps with
  | nil => rfl
  | cons p rest ih =>
    simp only [participantsPartition, nonEmailsOf, List.filterMap_cons] at *
    cases hp : (p != "") with
    | false =>
      simp at hp
      simp [hp, ih, emailLike]
    | true =>
      simp at hp
      cases he : ((pyStrip p).data.contains '@' && (pyStrip p).data.contains '.') with
      | true =>
        simp at he
        simp [hp, he.1, he.2, ih, emailLike]
      | false =>
        simp at he
        by_cases ha : '@' ∈ (pyStrip p).data
        · have hd := he ha
          simp [hp, ha, hd, ih, emailLike]
        · simp [hp, ha, ih, emailLike]

/-- Claim C4 (amended: each participant entry is stripped of surrounding
whitespace before the test and before use): converting a meeting makes every
non-empty entry containing both an at-sign and a dot an attendee with its
stripped form as email, in order and nothing else; every other non-empty
entry is appended, stripped and comma-joined, after the literal
`"Participants: "` marker in the description, which is otherwise unchanged. -/
theorem c4_participant_partition (m : Meeting) (g : GEvent)
    (hc : convert_to_google_event m = .ok g) :
    g.attendees = emailsOf m.participants
    ∧ (nonEmailsOf m.participants = [] → g.description = m.description)
    ∧ (nonEmailsOf m.participants ≠ [] →
        g.description = if m.description != "" then
            m.description ++ participantsText (nonEmailsOf m.participants)
          else pyStrip (participantsText (nonEmailsOf m.participants))) := by
  unfold convert_to_google_event at hc
  split at hc
  · exact absurd hc (by simp)
  · simp only [Except.ok.injEq] at hc
    subst hc
    refine ⟨participantsPartition_fst m.participants, fun hemp => ?_, fun hne => ?_⟩
    · simp only [participantsPartition_snd, hemp]
      rfl
    · have : ((participantsPartition m.participants).2 != []) = true := by
        rw [participantsPartition_snd]
        simpa [bne_iff_ne] using hne
      simp only [participantsPartition_snd] at this ⊢
      simp only [this, if_true]

/-- The concrete meeting of the claim's example. -/
def mC4 : Meeting :=
  { id := "m1", title := "Sync", date := "2025-06-10", time := "14:00",
    participants := ["alice@example.com", "Bob"], description := "" }

/-- The event body `mC4` converts to. -/
def gC4 : GEvent :=
  { id := "", summary := "Sync", description := "Participants: Bob",
    start := ⟨⟨2025, 6, 10⟩, 14, 0⟩, attendees := ["alice@example.com"], local_id := "m1" }

/-- Witness for C4: the claim's own example — exactly the attendee
`alice@example.com`, and a description containing the literal text `Bob`. -/
theorem c4_witness :
    gC4.attendees = ["alice@example.com"] ∧ isSubB "Bob".data gC4.description.data = true := by
  have h := c4_participant_partition mC4 gC4 rfl
  refine ⟨?_, by decide⟩
  rw [h.1]
  decide

/-- A meeting whose only participant is an email with surrounding blanks. -/
def mC4x : Meeting :=
  { id := "m1", title := "T", date := "2025-06-10", time := "14:00",
    participants := [" alice@example.com "], description := "" }

/-- Refutation of C4 as stated: the entry `" alice@example.com "` is non-empty
and contains both an at-sign and a dot, but the attendee entry carries the
stripped string, not that string. -/
theorem c4_counterexample :
    (convert_to_google_event mC4x).map (fun g => g.attendees) = .ok ["alice@example.com"]
    ∧ (convert_to_google_event mC4x).map
        (fun g => decide (" alice@example.com " ∈ g.attendees)) = .ok false :=
  ⟨rfl, rfl⟩

/-! ### Claim C6: past-date rejection -/

/-- Claim C6 (amended: for every non-empty title — an empty title is caught
earlier by the required-fields check): when date and time both parse and the
combined instant is not strictly after now, `schedule_meeting` fails with the
past-date error (which mentions "past") before any provider call — the store
is returned unchanged. -/
theorem c6_past_date_rejection (now : Nat) (gen_id : String) (s : Svc)
    (title date time : String) (participants : Option (List String)) (description : String)
    (pd : Date) (hh mm : Nat)
    (ht : title ≠ "")
    (hd : parse_date date = some pd)
    (htm : parse_time time = some (renderTime hh mm))
    (hh23 : hh ≤ 23) (hm59 : mm ≤ 59)
    (hpast : toSec ⟨pd, hh, mm⟩ ≤ now) :
    schedule_meeting now gen_id s title date time participants description
      = ({ success := false, error := some "Cannot schedule meetings in the past" }, s)
    ∧ isSubB "past".data "Cannot schedule meetings in the past".data = true := by
  refine ⟨?_, by decide⟩
  have hdate : date ≠ "" := by
    intro h
    rw [h] at hd
    exact Option.noConfusion hd
  have htime : time ≠ "" := by
    intro h
    rw [h] at htm
    exact Option.noConfusion htm
  have hval : validDate pd.year pd.month pd.day = true := parse_date_valid hd
  have hrender : strptimeDT (renderDate pd ++ " " ++ renderTime hh mm) = some ⟨pd, hh, mm⟩ :=
    strptimeDT_render pd.year pd.month pd.day hh mm hval hh23 hm59
  have hfut : is_future_datetime (renderDate pd) (renderTime hh mm) now = false := by
    unfold is_future_datetime
    rw [hrender]
    simp only [decide_eq_false_iff_not]
    omega
  have hcond : (title == "" || date == "" || time == "") = false := by
    simp [ht, hdate, htime]
  unfold schedule_meeting
  simp only [hcond, Bool.false_eq_true, if_false, hd, htm, hfut, Bool.not_false, if_true]

/-- The fixed clock used by the concrete instances: 2025-06-01 12:00. -/
def nowW : Nat := toSec ⟨⟨2025, 6, 1⟩, 12, 0⟩

/-- Witness for C6 at a concrete past instant. -/
theorem c6_witness :
    schedule_meeting nowW "loc" { events := [] } "Standup" "2025-05-01" "10:00" none ""
      = ({ success := false, error := some "Cannot schedule meetings in the past" },
         { events := [] })
    ∧ isSubB "past".data "Cannot schedule meetings in the past".data = true :=
  c6_past_date_rejection nowW "loc" { events := [] } "Standup" "2025-05-01" "10:00" none ""
    ⟨2025, 5, 1⟩ 10 0 (by decide) (by decide) (by decide) (by decide) (by decide) (by decide)

/-- Refutation of C6 as stated ("for every title"): with the empty title the
premises all hold — date and time parse, the instant is past — yet the error
is the missing-fields message, which does not mention the past-date
condition. -/
theorem c6_counterexample :
    parse_date "2025-05-01" = some ⟨2025, 5, 1⟩
    ∧ parse_time "10:00" = some "10:00"
    ∧ toSec ⟨⟨2025, 5, 1⟩, 10, 0⟩ ≤ nowW
    ∧ schedule_meeting nowW "loc" { events := [] } "" "2025-05-01" "10:00" none ""
        = ({ success := false, error := some "Missing required fields (title, date, time)" },
           { events := [] })
    ∧ isSubB "past".data "Missing required fields (title, date, time)".data = false :=
  ⟨by decide, by decide, by decide, rfl, by decide⟩

/-! ### Claims C5 and C10: update merge frame and supplied-field tests -/

/-- Once the target resolves (first match, truthy provider id), `update_meeting`
is the merge followed by the guarded conflict re-check (excluding the
meeting's own event id) and the adapter update. -/
lemma update_meeting_resolved (now : Nat) (s : Svc) (mid : String) (m0 : Meeting)
    (rest : List Meeting) (gid : String) (title date time : Option String)
    (participants : Option (List String)) (description : Option String)
    (hsucc : (get_meeting_details now s none none none (some mid)).success = true)
    (hms : (get_meeting_details now s none none none (some mid)).meetings = some (m0 :: rest))
    (hgid : m0.google_event_id = some gid) (hgne : gid ≠ "") :
    update_meeting now s mid title date time participants description
      = match mergeFields m0 title date time participants description with
        | .error r => (r, s)
        | .ok m4 =>
          if pyOptS date || pyOptS time then
            match check_time_conflict s m4.date m4.time (some gid) with
            | some c =>
              ({ success := false,
                 error := some ("Time conflict with " ++ c.title ++ " at "
                   ++ c.date ++ " " ++ c.time) }, s)
            | none => updFinish s m4 gid
          else updFinish s m4 gid := by
  have h1 : pyOptS m0.google_event_id = true := by
    rw [hgid]
    simpa [pyOptS, bne_iff_ne] using hgne
  have h2 : m0.google_event_id.getD "" = gid := by rw [hgid]; rfl
  simp only [update_meeting, hms, hsucc, if_true, h1, h2]

/-- Claim C5: updating only `time` on a resolvable meeting merges just the
time onto the fetched meeting — title, participants and description keep
their fetched values both in the merged body handed to the adapter and in
the returned meeting — and the conflict re-check runs excluding the
meeting's own event id. -/
theorem c5_update_time_frame (now : Nat) (s : Svc) (mid : String) (m0 : Meeting)
    (rest : List Meeting) (gid t pt : String)
    (hsucc : (get_meeting_details now s none none none (some mid)).success = true)
    (hms : (get_meeting_details now s none none none (some mid)).meetings = some (m0 :: rest))
    (hgid : m0.google_event_id = some gid) (hgne : gid ≠ "")
    (ht : t ≠ "") (hpt : parse_time t = some pt) :
    update_meeting now s mid none none (some t) none none
      = (match check_time_conflict s m0.date pt (some gid) with
         | some c =>
           ({ success := false,
              error := some ("Time conflict with " ++ c.title ++ " at "
                ++ c.date ++ " " ++ c.time) }, s)
         | none => updFinish s { m0 with time := pt } gid)
    ∧ (∀ r s2, update_meeting now s mid none none (some t) none none = (r, s2) →
        r.success = true → r.meeting = some { m0 with time := pt }) := by
  have htb : (t != "") = true := by simpa [bne_iff_ne] using ht
  have hmf : mergeFields m0 none none (some t) none none = .ok { m0 with time := pt } := by
    simp [mergeFields, mergeTime, mergeRest, pyOptS, pyOptL, htb, hpt]
  have hchar := update_meeting_resolved now s mid m0 rest gid none none (some t) none none
    hsucc hms hgid hgne
  rw [hmf] at hchar
  simp only [pyOptS, htb, Bool.or_true, if_true] at hchar
  refine ⟨hchar, fun r s2 heq hs => ?_⟩
  rw [hchar] at heq
  cases hc : check_time_conflict s m0.date pt (some gid) with
  | some c =>
    rw [hc] at heq
    simp only [Prod.mk.injEq] at heq
    rw [← heq.1] at hs
    exact absurd hs (by simp)
  | none =>
    rw [hc] at heq
    unfold updFinish at heq
    cases hupd : update_event s { m0 with time := pt } gid with
    | error e =>
      rw [hupd] at heq
      simp only [Prod.mk.injEq] at heq
      rw [← heq.1] at hs
      exact absurd hs (by simp)
    | ok p =>
      obtain ⟨b, s3⟩ := p
      rw [hupd] at heq
      cases b with
      | true =>
        simp only [Prod.mk.injEq] at heq
        rw [← heq.1]
      | false =>
        simp only [Prod.mk.injEq] at heq
        rw [← heq.1] at hs
        exact absurd hs (by simp)

/-- Claim C10: in `update_meeting` the supplied-field test is truthiness for
title and participants but an is-not-None test for description: an empty
title or empty participant list is silently ignored (the fetched values are
kept and the call still proceeds to the adapter), while an empty description
overwrites the stored one. -/
theorem c10_update_truthiness (now : Nat) (s : Svc) (mid : String) (m0 : Meeting)
    (rest : List Meeting) (gid : String)
    (hsucc : (get_meeting_details now s none none none (some mid)).success = true)
    (hms : (get_meeting_details now s none none none (some mid)).meetings = some (m0 :: rest))
    (hgid : m0.google_event_id = some gid) (hgne : gid ≠ "") :
    update_meeting now s mid (some "") none none none none = updFinish s m0 gid
    ∧ update_meeting now s mid none none none (some []) none = updFinish s m0 gid
    ∧ update_meeting now s mid none none none none (some "")
        = updFinish s { m0 with description := "" } gid := by
  refine ⟨?_, ?_, ?_⟩
  · have hchar := update_meeting_resolved now s mid m0 rest gid (some "") none none none none
      hsucc hms hgid hgne
    rw [hchar]
    simp [mergeFields, mergeTime, mergeRest, pyOptS, pyOptL]
  · have hchar := update_meeting_resolved now s mid m0 rest gid none none none (some []) none
      hsucc hms hgid hgne
    rw [hchar]
    simp [mergeFields, mergeTime, mergeRest, pyOptS, pyOptL]
  · have hchar := update_meeting_resolved now s mid m0 rest gid none none none none (some "")
      hsucc hms hgid hgne
    rw [hchar]
    simp [mergeFields, mergeTime, mergeRest, pyOptS, pyOptL]

/-- The fixture store for the update witnesses: one synced meeting. -/
def svcW : Svc :=
  { events := [{ id := "gev0", summary := "Standup", description := "daily",
                 start := ⟨⟨2025, 6, 10⟩, 14, 0⟩, attendees := ["alice@example.com"],
                 local_id := "loc1" }] }

/-- The meeting `svcW` resolves for id `gev0` (participants round-trip as
display names). -/
def m0W : Meeting :=
  { id := "loc1", title := "Standup", date := "2025-06-10", time := "14:00",
    participants := ["alice"], description := "daily", google_event_id := some "gev0" }

/-- Witness for C5: moving the meeting to 14:30 — inside its own old slot —
succeeds because the re-check excludes its own event id, and only the time
changes on the returned meeting. -/
theorem c5_witness :
    (update_meeting nowW svcW "gev0" none none (some "14:30") none none).1.meeting
      = some { m0W with time := "14:30" } := by
  have h := c5_update_time_frame nowW svcW "gev0" m0W [] "gev0" "14:30" "14:30"
    (by decide) (by decide) rfl (by decide) (by decide) (by decide)
  exact h.2 _ _ rfl (by decide)

/-- Witness for C10 on the fixture store. -/
theorem c10_witness :
    update_meeting nowW svcW "gev0" (some "") none none none none = updFinish svcW m0W "gev0"
    ∧ update_meeting nowW svcW "gev0" none none none (some []) none
        = updFinish svcW m0W "gev0"
    ∧ update_meeting nowW svcW "gev0" none none none none (some "")
        = updFinish svcW { m0W with description := "" } "gev0" :=
  c10_update_truthiness nowW svcW "gev0" m0W [] "gev0" (by decide) (by decide) rfl (by decide)

/-! ### Claim C2: the result envelope invariant -/

/-- The invariant of the uniform result envelope: failure always carries a
non-empty error, success never carries one. -/
def resultInvariant (r : ToolResult) : Prop :=
  (r.success = false → ∃ e, r.error = some e ∧ e ≠ "") ∧ (r.success = true → r.error = none)

lemma append_ne_empty {a : String} (b : String) (ha : a ≠ "") : a ++ b ≠ "" := by
  intro h
  have hd : a.data ++ b.data = [] := by
    simpa [String.data_append] using congrArg String.data h
  obtain ⟨h1, _⟩ := List.append_eq_nil.mp hd
  exact ha (String.ext (by simpa using h1))

lemma inv_err {e : String} (he : e ≠ "") :
    resultInvariant { success := false, error := some e } :=
  ⟨fun _ => ⟨e, rfl, he⟩, fun h => Bool.noConfusion h⟩

lemma inv_ok (msg : Option String) (mtg : Option Meeting) (mts : Option (List Meeting))
    (cnt : Option Nat) (dmt : Option Meeting) :
    resultInvariant { success := true, error := none, message := msg, meeting := mtg,
                      meetings := mts, count := cnt, deleted_meeting := dmt } :=
  ⟨fun h => Bool.noConfusion h, fun _ => rfl⟩

lemma inv_schedule (now : Nat) (gen_id : String) (s : Svc) (title date time : String)
    (participants : Option (List String)) (description : String) :
    resultInvariant (schedule_meeting now gen_id s title date time participants description).1 := by
  simp only [schedule_meeting]
  repeat' split
  all_goals first
    | exact inv_err (by decide)
    | exact inv_err (append_ne_empty _ (by decide))
    | exact inv_err (append_ne_empty _ (append_ne_empty _ (by decide)))
    | exact inv_err (append_ne_empty _ (append_ne_empty _ (append_ne_empty _ (by decide))))
    | exact inv_err (append_ne_empty _ (append_ne_empty _ (append_ne_empty _
        (append_ne_empty _ (by decide)))))
    | exact inv_err (append_ne_empty _ (append_ne_empty _ (append_ne_empty _
        (append_ne_empty _ (append_ne_empty _ (by decide))))))
    | exact inv_ok _ _ _ _ _

lemma inv_details (now : Nat) (s : Svc) (date participant title meeting_id : Option String) :
    resultInvariant (get_meeting_details now s date participant title meeting_id) := by
  simp only [get_meeting_details, getDetailsCore]
  repeat' split
  all_goals first
    | exact inv_err (by decide)
    | exact inv_err (append_ne_empty _ (by decide))
    | exact inv_err (append_ne_empty _ (append_ne_empty _ (by decide)))
    | exact inv_err (append_ne_empty _ (append_ne_empty _ (append_ne_empty _ (by decide))))
    | exact inv_err (append_ne_empty _ (append_ne_empty _ (append_ne_empty _
        (append_ne_empty _ (by decide)))))
    | exact inv_err (append_ne_empty _ (append_ne_empty _ (append_ne_empty _
        (append_ne_empty _ (append_ne_empty _ (by decide))))))
    | exact inv_ok _ _ _ _ _

lemma inv_list (now : Nat) (s : Svc) : resultInvariant (list_all_meetings now s) := by
  simp only [list_all_meetings]
  repeat' split
  all_goals first
    | exact inv_err (by decide)
    | exact inv_err (append_ne_empty _ (by decide))
    | exact inv_err (append_ne_empty _ (append_ne_empty _ (by decide)))
    | exact inv_err (append_ne_empty _ (append_ne_empty _ (append_ne_empty _ (by decide))))
    | exact inv_err (append_ne_empty _ (append_ne_empty _ (append_ne_empty _
        (append_ne_empty _ (by decide)))))
    | exact inv_err (append_ne_empty _ (append_ne_empty _ (append_ne_empty _
        (append_ne_empty _ (append_ne_empty _ (by decide))))))
    | exact inv_ok _ _ _ _ _

lemma inv_mergeFields_error {m0 : Meeting} {title date time : Option String}
    {participants : Option (List String)} {description : Option String} {r : ToolResult}
    (h : mergeFields m0 title date time participants description = .error r) :
    resultInvariant r := by
  unfold mergeFields mergeTime at h
  repeat' split at h
  all_goals first
    | (cases h; exact inv_err (append_ne_empty _ (by decide)))
    | exact absurd h (by simp)

lemma inv_updFinish (s : Svc) (m4 : Meeting) (gid : String) :
    resultInvariant (updFinish s m4 gid).1 := by
  unfold updFinish
  repeat' split
  all_goals first
    | exact inv_err (by decide)
    | exact inv_err (append_ne_empty _ (by decide))
    | exact inv_err (append_ne_empty _ (append_ne_empty _ (by decide)))
    | exact inv_err (append_ne_empty _ (append_ne_empty _ (append_ne_empty _ (by decide))))
    | exact inv_err (append_ne_empty _ (append_ne_empty _ (append_ne_empty _
        (append_ne_empty _ (by decide)))))
    | exact inv_err (append_ne_empty _ (append_ne_empty _ (append_ne_empty _
        (append_ne_empty _ (append_ne_empty _ (by decide))))))
    | exact inv_ok _ _ _ _ _

lemma inv_update (now : Nat) (s : Svc) (mid : String) (title date time : Option String)
    (participants : Option (List String)) (description : Option String) :
    resultInvariant (update_meeting now s mid title date time participants description).1 := by
  simp only [update_meeting]
  repeat' split
  all_goals first
    | exact inv_err (by decide)
    | exact inv_err (append_ne_empty _ (by decide))
    | exact inv_err (append_ne_empty _ (append_ne_empty _ (by decide)))
    | exact inv_err (append_ne_empty _ (append_ne_empty _ (append_ne_empty _ (by decide))))
    | exact inv_err (append_ne_empty _ (append_ne_empty _ (append_ne_empty _
        (append_ne_empty _ (by decide)))))
    | exact inv_err (append_ne_empty _ (append_ne_empty _ (append_ne_empty _
        (append_ne_empty _ (append_ne_empty _ (by decide))))))
    | exact inv_updFinish _ _ _
    | exact inv_mergeFields_error (by assumption)

lemma inv_delete (now : Nat) (s : Svc) (mid : String) :
    resultInvariant (delete_meeting now s mid).1 := by
  simp only [delete_meeting]
  repeat' split
  all_goals first
    | exact inv_err (by decide)
    | exact inv_err (append_ne_empty _ (by decide))
    | exact inv_err (append_ne_empty _ (append_ne_empty _ (by decide)))
    | exact inv_err (append_ne_empty _ (append_ne_empty _ (append_ne_empty _ (by decide))))
    | exact inv_err (append_ne_empty _ (append_ne_empty _ (append_ne_empty _
        (append_ne_empty _ (by decide)))))
    | exact inv_err (append_ne_empty _ (append_ne_empty _ (append_ne_empty _
        (append_ne_empty _ (append_ne_empty _ (by decide))))))
    | exact inv_ok _ _ _ _ _

/-- Claim C2: every invocation of the five tool handlers and of the agent's
dispatcher satisfies the envelope invariant — `success=False` carries a
non-empty error, `success=True` carries no error. -/
theorem c2_result_envelope (now : Nat) (gen_id : String) (s : Svc)
    (title date time : String) (participants : Option (List String)) (description : String)
    (od op ot omid : Option String) (mid tool_name : String) (inp : ToolInput)
    (ut ud utime : Option String) (ups : Option (List String)) (udesc : Option String) :
    resultInvariant (schedule_meeting now gen_id s title date time participants description).1
    ∧ resultInvariant (get_meeting_details now s od op ot omid)
    ∧ resultInvariant (list_all_meetings now s)
    ∧ resultInvariant (update_meeting now s mid ut ud utime ups udesc).1
    ∧ resultInvariant (delete_meeting now s mid).1
    ∧ resultInvariant (execute_tool now gen_id s tool_name inp).1 := by
  refine ⟨inv_schedule _ _ _ _ _ _ _ _, inv_details _ _ _ _ _ _, inv_list _ _,
    inv_update _ _ _ _ _ _ _ _, inv_delete _ _ _, ?_⟩
  simp only [execute_tool]
  repeat' split
  all_goals first
    | exact inv_err (by decide)
    | exact inv_err (append_ne_empty _ (by decide))
    | exact inv_err (append_ne_empty _ (append_ne_empty _ (by decide)))
    | exact inv_schedule _ _ _ _ _ _ _ _
    | exact inv_details _ _ _ _ _ _
    | exact inv_list _ _
    | exact inv_update _ _ _ _ _ _ _ _
    | exact inv_delete _ _ _

/-! ### Claim C1: schedule / get_meeting_details round trip -/

lemma pyOptS_none : pyOptS none = false := rfl

lemma pyOptS_some (x : String) : pyOptS (some x) = (x != "") := rfl

/-- Claim C1 (amended: participants do not echo verbatim — each email-valid
entry comes back as its display name, the part of the stripped entry before
the first at-sign, because the read path prefers `displayName` and falls back
to `email.split("@")[0]`; the fetch window must also hold at most 100 events,
the provider page cap).  A successfully created meeting whose start lies
within 30 days after the query instant is returned by
`get_meeting_details(meeting_id=...)` — under the meeting's remote id or its
local id — with the same title and the normalized date and time supplied at
creation. -/
theorem c1_roundtrip (now now2 : Nat) (gen_id : String) (s : Svc)
    (title date time : String) (participants : Option (List String)) (description : String)
    (pd : Date) (hh mm : Nat)
    (ht : title ≠ "") (hgen : gen_id ≠ "")
    (hd : parse_date date = some pd)
    (htm : parse_time time = some (renderTime hh mm)) (hh23 : hh ≤ 23) (hm59 : mm ≤ 59)
    (hfut : now < toSec ⟨pd, hh, mm⟩)
    (hnoconf : check_time_conflict s (renderDate pd) (renderTime hh mm) none = none)
    (hcreate : s.createOk = true)
    (hfetch : s.fetchRaises = false)
    (hwin1 : now2 ≤ toSec ⟨pd, hh, mm⟩)
    (hwin2 : toSec ⟨pd, hh, mm⟩ < now2 + 2592000)
    (hcap : (s.events.filter fun g =>
        decide (now2 < toSec g.start + 3600)
          && decide (toSec g.start < now2 + 2592000)).length ≤ 99) :
    (schedule_meeting now gen_id s title date time participants description).1.success = true
    ∧ ∀ qid, (qid = "gev" ++ Nat.repr s.nextId ∨ qid = gen_id) →
        ∃ ms m2,
          (get_meeting_details now2
              (schedule_meeting now gen_id s title date time participants description).2
              none none none (some qid)).meetings = some ms
          ∧ m2 ∈ ms
          ∧ m2.title = title
          ∧ m2.date = renderDate pd
          ∧ m2.time = renderTime hh mm
          ∧ ∀ p ∈ participants.getD [], pyStrip p ≠ "" → emailLike (pyStrip p) = true →
              localPart (pyStrip p) ∈ m2.participants := by
  have hdate : date ≠ "" := by
    intro h
    rw [h] at hd
    exact Option.noConfusion hd
  have htime : time ≠ "" := by
    intro h
    rw [h] at htm
    exact Option.noConfusion htm
  have hval : validDate pd.year pd.month pd.day = true := parse_date_valid hd
  have hrender : strptimeDT (renderDate pd ++ " " ++ renderTime hh mm) = some ⟨pd, hh, mm⟩ :=
    strptimeDT_render pd.year pd.month pd.day hh mm hval hh23 hm59
  have hfutb : is_future_datetime (renderDate pd) (renderTime hh mm) now = true := by
    unfold is_future_datetime
    rw [hrender]
    simpa using hfut
  have hcond : (title == "" || date == "" || time == "") = false := by
    simp [ht, hdate, htime]
  obtain ⟨body, hconv⟩ : ∃ b : GEvent,
      convert_to_google_event
        { id := gen_id, title := title, date := renderDate pd, time := renderTime hh mm,
          participants := (participants.getD []).filter fun p => p != "" && pyStrip p != "",
          description := description }
      = .ok b := by
    simp only [convert_to_google_event, hrender]
    exact ⟨_, rfl⟩
  have hbody2 := hconv
  simp only [convert_to_google_event, hrender, Except.ok.injEq] at hbody2
  have hsum : body.summary = title := by rw [← hbody2]
  have hstart : body.start = ⟨pd, hh, mm⟩ := by rw [← hbody2]
  have hattP : body.attendees = (participantsPartition
      ((participants.getD []).filter fun p => p != "" && pyStrip p != "")).1 := by
    rw [← hbody2]
  have hlid : body.local_id = gen_id := by rw [← hbody2]
  have hsch : schedule_meeting now gen_id s title date time participants description
      = ({ success := true,
           meeting := some
             { id := gen_id, title := title, date := renderDate pd, time := renderTime hh mm,
               participants := (participants.getD []).filter fun p => p != "" && pyStrip p != "",
               description := description,
               google_event_id := some ("gev" ++ Nat.repr s.nextId) },
           message := some ("Successfully scheduled " ++ title ++ " on " ++ renderDate pd
             ++ " at " ++ renderTime hh mm ++ " (Synced to Google Calendar)") },
         { s with events := s.events ++ [{ body with id := "gev" ++ Nat.repr s.nextId }],
                  nextId := s.nextId + 1 }) := by
    simp only [schedule_meeting, hcond, Bool.false_eq_true, if_false, hd, htm, hfutb,
      Bool.not_true, hnoconf, create_event, hconv, hcreate, if_true]
  refine ⟨by rw [hsch], fun qid hq => ?_⟩
  rw [hsch]
  have hqne : qid ≠ "" := by
    rcases hq with h | h
    · rw [h]
      exact append_ne_empty _ (by decide)
    · rw [h]
      exact hgen
  have hqb : (qid != "") = true := by simpa [bne_iff_ne] using hqne
  set gstar : GEvent := { body with id := "gev" ++ Nat.repr s.nextId } with hgstar
  set s2 : Svc := { s with events := s.events ++ [gstar], nextId := s.nextId + 1 } with hs2
  have hgpred : (decide (now2 < toSec gstar.start + 3600)
      && decide (toSec gstar.start < now2 + 2592000)) = true := by
    rw [show gstar.start = (⟨pd, hh, mm⟩ : DateTime) from hstart]
    simp only [Bool.and_eq_true, decide_eq_true_eq]
    omega
  have hfilter : s2.events.filter
        (fun g => decide (now2 < toSec g.start + 3600) && decide (toSec g.start < now2 + 2592000))
      = (s.events.filter fun g =>
          decide (now2 < toSec g.start + 3600) && decide (toSec g.start < now2 + 2592000))
        ++ [gstar] := by
    show (s.events ++ [gstar]).filter _ = _
    rw [List.filter_append]
    simp [hgpred]
  have hlen : ((s2.events.filter
        (fun g => decide (now2 < toSec g.start + 3600)
          && decide (toSec g.start < now2 + 2592000))).insertionSort startLE).length ≤ 100 := by
    rw [(List.perm_insertionSort startLE _).length_eq, hfilter, List.length_append]
    simpa using hcap
  have hmemg : gstar ∈ getGEvents s2 now2 (now2 + 2592000) := by
    unfold getGEvents
    rw [List.take_of_length_le hlen]
    rw [List.mem_insertionSort]
    rw [hfilter]
    exact List.mem_append_right _ (List.mem_singleton.mpr rfl)
  have hmemm : convert_from_google_event gstar
      ∈ (getGEvents s2 now2 (now2 + 2592000)).map convert_from_google_event :=
    List.mem_map_of_mem _ hmemg
  have hne : (getGEvents s2 now2 (now2 + 2592000)).map convert_from_google_event ≠ [] :=
    List.ne_nil_of_mem hmemm
  have hbeq : ((getGEvents s2 now2 (now2 + 2592000)).map convert_from_google_event == [])
      = false := by
    simpa [beq_eq_false_iff_ne] using hne
  have hmid : (convert_from_google_event gstar).google_event_id == some qid
      || (convert_from_google_event gstar).id == qid := by
    rcases hq with h | h
    · subst h
      have hge : (convert_from_google_event gstar).google_event_id
          = some ("gev" ++ Nat.repr s.nextId) := rfl
      rw [hge]
      simp
    · rw [h]
      have hid : (convert_from_google_event gstar).id = gen_id := by
        show (if gstar.local_id != "" then gstar.local_id else gstar.id) = gen_id
        rw [show gstar.local_id = gen_id from hlid]
        simp [bne_iff_ne, hgen]
      rw [hid]
      simp
  have hdet : (get_meeting_details now2 s2 none none none (some qid)).meetings
      = some (((getGEvents s2 now2 (now2 + 2592000)).map convert_from_google_event).filter
          fun m => m.google_event_id == some qid || m.id == qid) := by
    simp only [get_meeting_details, pyOptS_none, Bool.false_eq_true, if_false,
      getDetailsCore, get_events]
    simp only [hfetch, Bool.false_eq_true, if_false, hbeq, pyOptS_some, hqb, if_true,
      pyOptS_none, Option.getD_some]
  refine ⟨_, convert_from_google_event gstar, hdet, ?_, ?_, ?_, ?_, ?_⟩
  · exact List.mem_filter.mpr ⟨hmemm, hmid⟩
  · show gstar.summary = title
    exact hsum
  · show renderDate gstar.start.date = renderDate pd
    rw [show gstar.start = (⟨pd, hh, mm⟩ : DateTime) from hstart]
  · show renderTime gstar.start.hour gstar.start.minute = renderTime hh mm
    rw [show gstar.start = (⟨pd, hh, mm⟩ : DateTime) from hstart]
  · intro p hp hps hel
    have hpne : p ≠ "" := by
      intro h
      rw [h] at hps
      exact hps rfl
    have hp2 : p ∈ (participants.getD []).filter fun p => p != "" && pyStrip p != "" := by
      refine List.mem_filter.mpr ⟨hp, ?_⟩
      simp [bne_iff_ne, hpne, hps]
    have hp3 : pyStrip p ∈ emailsOf
        ((participants.getD []).filter fun p => p != "" && pyStrip p != "") := by
      refine List.mem_filterMap.mpr ⟨p, hp2, ?_⟩
      simp [bne_iff_ne, hpne, hel]
    show localPart (pyStrip p) ∈ gstar.attendees.map localPart
    have ha : gstar.attendees
        = emailsOf ((participants.getD []).filter fun p => p != "" && pyStrip p != "") := by
      rw [show gstar.attendees = (participantsPartition
        ((participants.getD []).filter fun p => p != "" && pyStrip p != "")).1 from hattP]
      exact participantsPartition_fst _
    rw [ha]
    exact List.mem_map_of_mem _ hp3

/-- Witness for C1: schedule into an empty store, fetch by the remote id. -/
theorem c1_witness :
    (schedule_meeting nowW "loc1" { events := [] } "Standup" "2025-06-10" "14:00"
        (some ["alice@example.com"]) "").1.success = true
    ∧ ∃ ms m2,
        (get_meeting_details nowW
            (schedule_meeting nowW "loc1" { events := [] } "Standup" "2025-06-10" "14:00"
              (some ["alice@example.com"]) "").2
            none none none (some "gev0")).meetings = some ms
        ∧ m2 ∈ ms
        ∧ m2.title = "Standup"
        ∧ m2.date = renderDate ⟨2025, 6, 10⟩
        ∧ m2.time = renderTime 14 0
        ∧ ∀ p ∈ (some ["alice@example.com"] : Option (List String)).getD [],
            pyStrip p ≠ "" → emailLike (pyStrip p) = true →
              localPart (pyStrip p) ∈ m2.participants := by
  have h := c1_roundtrip nowW nowW "loc1" { events := [] } "Standup" "2025-06-10" "14:00"
    (some ["alice@example.com"]) "" ⟨2025, 6, 10⟩ 14 0
    (by decide) (by decide) (by decide) (by decide) (by decide) (by decide) (by decide)
    (by decide) (by decide) (by decide) (by decide) (by decide) (by decide)
  exact ⟨h.1, h.2 "gev0" (Or.inl (by decide))⟩

/-- Refutation of C1 as stated: the fetched meeting's participants list is
`["alice"]` — the supplied email-valid entry `alice@example.com` does not
echo back verbatim, only its local part does. -/
theorem c1_counterexample :
    (schedule_meeting nowW "loc1" { events := [] } "Standup" "2025-06-10" "14:00"
        (some ["alice@example.com"]) "").1.success = true
    ∧ (get_meeting_details nowW
          (schedule_meeting nowW "loc1" { events := [] } "Standup" "2025-06-10" "14:00"
            (some ["alice@example.com"]) "").2
          none none none (some "gev0")).meetings
        = some [{ id := "loc1", title := "Standup", date := "2025-06-10", time := "14:00",
                  participants := ["alice"], description := "",
                  google_event_id := some "gev0" }]
    ∧ "alice@example.com" ∉ (["alice"] : List String) := by
  refine ⟨by decide, by decide, by decide⟩

end Cal
